import Mathlib

/-!
Verification of the task query/filter/sort/statistics core of a todo
application (Express + Mongoose backend `backend/routes/todos.js`,
`backend/models/Todo.js`, and two near-duplicate React clients: an offline
`App` and a backend-integrated `TodoApp`).

Shallow embedding conventions:
* instants are integers (milliseconds since the epoch, as in JavaScript
  `Date.getTime()`); `now` is always passed explicitly;
* an optional value (`deadline`, `category`, query parameters) is an
  `Option`; the Mongoose schema gives `deadline` the default `null`, so a
  task created without a deadline stores BSON Null — modelled as `none`;
* the MongoDB store's filter/sort/count/update/delete primitives are
  modelled as list operations over the collection of all stored tasks.
-/

/-- Priority enum of `TodoSchema.priority` (`enum: ['low','medium','high']`,
default `'medium'`). -/
inductive Priority where
  | low
  | medium
  | high
deriving DecidableEq, Repr, BEq

/-- The stored task document, per `backend/models/Todo.js` (`TodoSchema`).
`user` is the owner reference, `deadline` is `Date` with default `null`
(hence `Option Int`), `category` is optional. `createdAt` comes from
`{ timestamps: true }`. Identifiers are modelled as naturals. -/
structure Todo where
  id : Nat
  user : Nat
  text : String
  completed : Bool
  deadline : Option Int
  priority : Priority
  category : Option String
  createdAt : Int
deriving DecidableEq, Repr

/-- JavaScript `String.prototype.trim()` (also the express-validator
`trim()` sanitizer): remove whitespace from both ends of the string. -/
def trimChars (s : String) : String :=
  String.mk (((s.data.dropWhile Char.isWhitespace).reverse.dropWhile
    Char.isWhitespace).reverse)

/-- JavaScript `Math.ceil(a / b)` for integer `a` and positive integer `b`
(exact: for the millisecond magnitudes involved the float division rounds
to a value on the same side of every integer as the rational quotient).
`ceil (a / b) = -⌊(-a) / b⌋`; `/` on `Int` is the flooring (Euclidean)
division for a positive divisor. -/
def jsCeilDiv (a b : Int) : Int := -((-a) / b)

/-- The five urgency buckets returned by `getDeadlineStatus`. -/
inductive DeadlineStatus where
  | none
  | overdue
  | today
  | soon
  | normal
deriving DecidableEq, Repr, BEq

/-- `getDeadlineStatus(deadline, completed)` — the deadline classifier.
The identical function body appears in both clients (offline `App` and
`TodoApp`):

    if (!deadline || completed) return 'none';
    const diffTime = deadlineDate - now;
    const diffHours = diffTime / (1000 * 60 * 60);
    const diffDays = Math.ceil(diffTime / (1000 * 60 * 60 * 24));
    if (diffTime < 0) return 'overdue';
    if (diffHours <= 24 && diffDays <= 1) return 'today';
    if (diffDays <= 3) return 'soon';
    return 'normal';

`diffHours <= 24` on millisecond integers is exactly
`diffTime ≤ 24 * 3600000 = 86400000`. -/
def getDeadlineStatus (deadline : Option Int) (completed : Bool) (now : Int) :
    DeadlineStatus :=
  match deadline with
  | Option.none => .none
  | some d =>
    if completed then .none
    else
      let diffTime := d - now
      let diffDays := jsCeilDiv diffTime 86400000
      if diffTime < 0 then .overdue
      else if diffTime ≤ 86400000 ∧ diffDays ≤ 1 then .today
      else if diffDays ≤ 3 then .soon
      else .normal

/-- `isOverdue(deadline)` of both clients:

    if (!deadline) return false;
    return deadlineDate < now;
-/
def isOverdue (deadline : Option Int) (now : Int) : Bool :=
  match deadline with
  | Option.none => false
  | some d => d < now

/-!
### GET /todos — the list endpoint

The handler builds `filter = { user, completed?, category?, text: {$regex:
search, $options:'i'}? }`, sorts by one key, applies `skip = (page-1)*limit`
and `limit`, and counts the same filter with `countDocuments`.

The search string is handed to the store verbatim as a case-insensitive
regular expression (it is not escaped). We model the store's regex engine
on the fragment sufficient for the claims: patterns made of literal
characters and the `.` wildcard (which matches any character except a
newline, as in JavaScript/PCRE without the `s` flag), matched unanchored
against the task text; the `i` flag is modelled by ASCII lower-casing, as
`Char.toLower` lower-cases exactly the ASCII letters. A search string
without regex metacharacters corresponds to the all-literal pattern
`litPattern`.
-/

/-- One atom of the modelled regex fragment. -/
inductive RChar where
  | lit (c : Char)
  | dot
deriving DecidableEq, Repr

/-- The pattern a search string denotes. -/
abbrev Pattern := List RChar

/-- The all-literal pattern of a search string that contains no regex
metacharacters. -/
def litPattern (s : String) : Pattern := s.data.map RChar.lit

/-- Anchored match of a pattern against a prefix of the text,
case-insensitively. -/
def matchHere : Pattern → List Char → Bool
  | [], _ => true
  | _ :: _, [] => false
  | RChar.lit c :: ps, x :: xs => (x.toLower == c.toLower) && matchHere ps xs
  | RChar.dot :: ps, x :: xs => (x != '\n') && matchHere ps xs

/-- Unanchored match: the pattern matches at some position of the text.
This is the store-side test `text =~ /search/i`. -/
def regexSearch (p : Pattern) : List Char → Bool
  | [] => matchHere p []
  | x :: xs => matchHere p (x :: xs) || regexSearch p xs

/-- Case-insensitive prefix test between character lists. -/
def prefixCI : List Char → List Char → Bool
  | [], _ => true
  | _ :: _, [] => false
  | c :: cs, x :: xs => (x.toLower == c.toLower) && prefixCI cs xs

/-- Case-insensitive literal-substring containment: `needle` occurs
contiguously in `hay`, comparing ASCII letters without case. -/
def substrCI (needle : List Char) : List Char → Bool
  | [] => prefixCI needle []
  | x :: xs => prefixCI needle (x :: xs) || substrCI needle xs

/-- Sort fields accepted by the `sortBy` validator
(`isIn(['createdAt','deadline','priority','text'])`). -/
inductive SortField where
  | createdAt
  | deadline
  | priority
  | text
deriving DecidableEq, Repr

/-- Sort directions accepted by the `sortOrder` validator
(`isIn(['asc','desc'])`). -/
inductive SortOrder where
  | asc
  | desc
deriving DecidableEq, Repr

/-- The query parameters of GET /todos after type decoding. `none` means
the parameter was absent; the enumerated parameters are typed, mirroring
that any other raw value is rejected by the validators. The search string
is carried as the pattern it denotes to the store's regex engine. -/
structure ListQuery where
  page : Option Nat
  limit : Option Nat
  completedQ : Option Bool
  categoryQ : Option String
  searchQ : Option Pattern
  sortBy : Option SortField
  sortOrder : Option SortOrder
deriving Repr

/-- The query validators of the route: `page ≥ 1`, `1 ≤ limit ≤ 100`,
search length ≤ 100 (checked on the raw string; our fragment's patterns
have one atom per character). `completed`, `sortBy`, `sortOrder` are
already typed, so their enum checks always pass here. -/
def validListQuery (q : ListQuery) : Bool :=
  (match q.page with | Option.none => true | some p => 1 ≤ p) &&
  (match q.limit with | Option.none => true | some l => 1 ≤ l && l ≤ 100) &&
  (match q.searchQ with | Option.none => true | some pat => pat.length ≤ 100)

/-- The filter object built by the handler, as a predicate on stored
documents:

    const filter = { user: req.user.id };
    if (req.query.completed !== undefined) filter.completed = ... === 'true';
    if (req.query.category) filter.category = req.query.category;
    if (req.query.search) filter.text = { $regex: search, $options: 'i' };

`if (req.query.category)` and `if (req.query.search)` are truthiness
tests: an empty string is skipped like an absent parameter. A category
equality filter matches only documents whose `category` field holds that
string. -/
def listFilter (owner : Nat) (q : ListQuery) (t : Todo) : Bool :=
  t.user == owner &&
  (match q.completedQ with
   | Option.none => true
   | some b => t.completed == b) &&
  (match q.categoryQ with
   | Option.none => true
   | some c => if c = "" then true else t.category == some c) &&
  (match q.searchQ with
   | Option.none => true
   | some pat => if pat = [] then true else regexSearch pat t.text.data)

/-- BSON ascending comparison on a nullable `Date` field: Null sorts
before every Date. -/
def bsonDateLe (a b : Option Int) : Bool :=
  match a, b with
  | Option.none, _ => true
  | some _, Option.none => false
  | some x, some y => x ≤ y

/-- The stored string of a priority value; BSON compares strings
byte-wise, so ascending priority order is `high < low < medium`. -/
def priorityStr : Priority → String
  | .low => "low"
  | .medium => "medium"
  | .high => "high"

/-- Byte-wise (code-point) string comparison, as the store's binary
collation on the ASCII values involved. -/
def strLe (a b : String) : Bool := a == b || a < b

/-- Ascending BSON comparison of two documents on one sort field. -/
def fieldLe (f : SortField) (a b : Todo) : Bool :=
  match f with
  | .createdAt => a.createdAt ≤ b.createdAt
  | .deadline => bsonDateLe a.deadline b.deadline
  | .priority => strLe (priorityStr a.priority) (priorityStr b.priority)
  | .text => strLe a.text b.text

/-- The document comparison the handler requests: `sortBy` defaults to
`createdAt`; `sortOrder === 'asc' ? 1 : -1`, i.e. anything but `asc`
(including absence) sorts descending. -/
def sortLe (q : ListQuery) (a b : Todo) : Bool :=
  let f := q.sortBy.getD .createdAt
  match q.sortOrder with
  | some .asc => fieldLe f a b
  | _ => fieldLe f b a

/-- Insert into a sorted list (the model of the store's single-key sort;
the source's tie order is unspecified, so any realization of the
comparator is faithful). -/
def orderedInsert (le : Todo → Todo → Bool) (x : Todo) : List Todo → List Todo
  | [] => [x]
  | y :: ys => if le x y then x :: y :: ys else y :: orderedInsert le x ys

/-- Sort a document list by the requested comparison. -/
def sortDocs (le : Todo → Todo → Bool) : List Todo → List Todo
  | [] => []
  | x :: xs => orderedInsert le x (sortDocs le xs)

/-- The effective page: `parseInt(req.query.page) || 1`. -/
def effPage (q : ListQuery) : Nat := q.page.getD 1

/-- The effective page size: `parseInt(req.query.limit) || 10`. -/
def effLimit (q : ListQuery) : Nat := q.limit.getD 10

/-- The query pipeline of the handler after validation:
`Todo.find(filter).sort(sort).limit(limit).skip(skip)` together with
`Todo.countDocuments(filter)`; `skip = (page - 1) * limit`. Returns the
page of documents and the pre-pagination count. -/
def listPipeline (todos : List Todo) (owner : Nat) (q : ListQuery) :
    List Todo × Nat :=
  let matched := todos.filter (listFilter owner q)
  let sorted := sortDocs (sortLe q) matched
  let skip := (effPage q - 1) * effLimit q
  (((sorted.drop skip).take (effLimit q)), matched.length)

/-- The GET /todos handler: validation errors yield a 400 response
(`Option.none`); otherwise the pipeline result is returned. -/
def listHandler (todos : List Todo) (owner : Nat) (q : ListQuery) :
    Option (List Todo × Nat) :=
  if validListQuery q then some (listPipeline todos owner q) else Option.none

/-!
### GET /todos/stats/summary — the statistics endpoint

The handler runs one aggregation pipeline:

    [{ $match: { user } },
     { $group: { _id: null,
         total:     { $sum: 1 },
         completed: { $sum: { $cond: ['$completed', 1, 0] } },
         pending:   { $sum: { $cond: ['$completed', 0, 1] } },
         overdue:   { $sum: { $cond: [{ $and: [
                        { $lt: ['$deadline', new Date()] },
                        { $eq: ['$completed', false] }] }, 1, 0] } } } }]

and substitutes `stats[0] || {total:0, completed:0, pending:0, overdue:0}`.

The aggregation `$lt` compares by the BSON comparison order, in which
Null (the schema default stored for a task created without a deadline)
sorts before every Date; so `$lt: ['$deadline', new Date()]` is TRUE for
a document whose deadline is Null. `deadlineBsonLtNow` embeds that
comparison.
-/

/-- The aggregation-expression test `$lt: ['$deadline', new Date()]` on a
nullable Date field: BSON Null is less than every Date, so a `null`
deadline satisfies it. -/
def deadlineBsonLtNow (deadline : Option Int) (now : Int) : Bool :=
  match deadline with
  | Option.none => true
  | some d => d < now

/-- The four counters of the `$group` stage. -/
structure Stats where
  total : Nat
  completed : Nat
  pending : Nat
  overdue : Nat
deriving DecidableEq, Repr

/-- The aggregation pipeline: groups the owner's documents into one row
of counters, or produces no row at all when no document matches. -/
def aggregateStats (todos : List Todo) (owner : Nat) (now : Int) :
    Option Stats :=
  let matched := todos.filter (fun t => t.user == owner)
  if matched.isEmpty then Option.none
  else some
    { total := matched.length
      completed := matched.countP (fun t => t.completed)
      pending := matched.countP (fun t => !t.completed)
      overdue := matched.countP
        (fun t => deadlineBsonLtNow t.deadline now && t.completed == false) }

/-- The GET /todos/stats/summary handler: `stats[0] || zeros`, wrapped in
`{success: true, data: result}` (the Bool component is `success`). -/
def statsSummary (todos : List Todo) (owner : Nat) (now : Int) :
    Bool × Stats :=
  (true, (aggregateStats todos owner now).getD
    { total := 0, completed := 0, pending := 0, overdue := 0 })

/-!
### PATCH /todos/bulk — bulk actions

    case 'complete-all':
      Todo.updateMany({ user, completed: false }, { completed: true })
    case 'delete-completed':
      Todo.deleteMany({ user, completed: true })
    case 'delete-all':
      Todo.deleteMany({ user })

The handler reports `result.modifiedCount || result.deletedCount || 0`;
`updateMany` modifies every matched document here (each matched one has
`completed: false` and is set to `true`), and `deleteMany` reports the
number deleted, so the reported count is the number of matched documents
in every case. Each action returns the new store contents and that count.
-/

/-- `complete-all`: set `completed` on the owner's not-completed tasks;
the reported count is the number of documents modified. -/
def completeAll (todos : List Todo) (owner : Nat) : List Todo × Nat :=
  (todos.map (fun t =>
      if t.user == owner && !t.completed then { t with completed := true } else t),
   todos.countP (fun t => t.user == owner && !t.completed))

/-- `delete-completed`: remove the owner's completed tasks; the reported
count is the number deleted. -/
def deleteCompleted (todos : List Todo) (owner : Nat) : List Todo × Nat :=
  (todos.filter (fun t => !(t.user == owner && t.completed)),
   todos.countP (fun t => t.user == owner && t.completed))

/-- `delete-all`: remove every task of the owner; the reported count is
the number deleted. -/
def deleteAll (todos : List Todo) (owner : Nat) : List Todo × Nat :=
  (todos.filter (fun t => !(t.user == owner)),
   todos.countP (fun t => t.user == owner))

/-!
### POST /todos — create

    const { text, deadline, priority, category } = req.body;
    const todoData = { text, user: req.user.id };
    if (deadline) todoData.deadline = new Date(deadline);
    if (priority) todoData.priority = priority;
    if (category) todoData.category = category;
    const todo = await Todo.create(todoData);

Only `text`, `deadline`, `priority`, `category` are destructured from the
body; the schema defaults supply `completed: false`, `deadline: null`,
`priority: 'medium'`. The validators trim `text` and `category` in place
(so the handler sees the trimmed values), require `text` non-empty and
≤500 characters, `category` ≤50 characters, `deadline` a valid ISO date
(already decoded to an instant here), `priority` in the enum (typed here).
-/

/-- The request body of POST /todos. `completedB` models a `completed`
value a caller may supply; the handler never reads it. -/
structure CreateBody where
  text : String
  deadline : Option Int
  priority : Option Priority
  category : Option String
  completedB : Option Bool
deriving Repr

/-- The body validators of POST /todos on the typed body: trimmed text
non-empty and ≤500, trimmed category ≤50. -/
def validCreateBody (b : CreateBody) : Bool :=
  (trimChars b.text) ≠ "" && (trimChars b.text).length ≤ 500 &&
  (match b.category with
   | Option.none => true
   | some c => (trimChars c).length ≤ 50)

/-- The POST /todos handler: `Option.none` is the 400 validation
response; otherwise the created document (with the store-assigned
identifier and timestamp). `if (category)` is a truthiness test, so a
category that trims to the empty string is not set. -/
def createTodo (b : CreateBody) (owner : Nat) (freshId : Nat) (now : Int) :
    Option Todo :=
  if validCreateBody b then
    some
      { id := freshId
        user := owner
        text := (trimChars b.text)
        completed := false
        deadline := b.deadline
        priority := b.priority.getD .medium
        category :=
          match b.category with
          | Option.none => Option.none
          | some c => if (trimChars c) = "" then Option.none else some (trimChars c)
        createdAt := now }
  else Option.none

/-!
### Client presentation state — `saveEdit` in the two client variants

Both clients keep the task list plus edit-session fields (`editingId`,
`editText`, `editDeadline`, `editTime`) in component state. Deadlines are
carried client-side as ISO strings; we keep the literal combined
`date ++ "T" ++ time` string (the code round-trips it through
`new Date(...).toISOString()`, a normalization none of the claims depend
on).
-/

/-- A task as the clients hold it (`id` stands for the offline `id` and
the backend `_id` alike; the extra backend fields are irrelevant to the
edit logic). -/
structure ClientTodo where
  id : Nat
  text : String
  completed : Bool
  deadline : Option String
  createdAt : String
deriving DecidableEq, Repr

/-- The component state shared by both variants: the working task list
and the edit-session fields (plus the `error` banner, used only by the
backend variant). -/
structure ClientState where
  todos : List ClientTodo
  editingId : Option Nat
  editText : String
  editDeadline : String
  editTime : String
  error : String
deriving DecidableEq, Repr

/-- Composing a deadline from the date and time inputs, as both `saveEdit`
bodies do:

    editDeadline
      ? (editTime ? new Date(`${editDeadline}T${editTime}`)
                  : new Date(`${editDeadline}T23:59`)).toISOString()
      : null
-/
def composeDeadline (date time : String) : Option String :=
  if date = "" then Option.none
  else some (date ++ "T" ++ (if time = "" then "23:59" else time))

namespace OfflineApp

/-- `saveEdit` of the offline `App`: when the edit text trims non-empty,
rewrite the edited task's `text` and `deadline`; in every case clear
`editingId`, `editText`, `editDeadline`, `editTime` (the clearing calls
sit after the `if`). -/
def saveEdit (s : ClientState) : ClientState :=
  let s1 :=
    if (trimChars s.editText) ≠ "" then
      { s with
        todos := s.todos.map (fun t =>
          if some t.id == s.editingId then
            { t with
              text := (trimChars s.editText)
              deadline := composeDeadline s.editDeadline s.editTime }
          else t) }
    else s
  { s1 with
    editingId := Option.none
    editText := ""
    editDeadline := ""
    editTime := "" }

end OfflineApp

namespace BackendApp

/-- `saveEdit` of the backend-integrated `TodoApp`: the whole body sits
inside `if (editText.trim() !== '')`. In the non-empty case the client
PUTs `{text, deadline}` (deadline `null` when the date input is empty),
replaces the matching task with the server's updated document, and clears
the edit fields; when the PUT fails (no such task — 404) the `catch` only
sets the error banner. In the empty case NOTHING runs: the edit session
is not cleared. -/
def saveEdit (s : ClientState) : ClientState :=
  if (trimChars s.editText) ≠ "" then
    match s.editingId with
    | some eid =>
      if s.todos.any (fun t => t.id == eid) then
        { s with
          todos := s.todos.map (fun t =>
            if t.id == eid then
              { t with
                text := (trimChars s.editText)
                deadline := composeDeadline s.editDeadline s.editTime }
            else t)
          editingId := Option.none
          editText := ""
          editDeadline := ""
          editTime := ""
          error := "" }
      else { s with error := "Failed to update todo. Please try again." }
    | Option.none => { s with error := "Failed to update todo. Please try again." }
  else s

end BackendApp

/-! ### Helper lemmas -/

theorem matchHere_map_lit (cs hay : List Char) :
    matchHere (cs.map RChar.lit) hay = prefixCI cs hay := by
  induction cs generalizing hay with
  | nil => cases hay <;> rfl
  | cons c cs ih =>
    cases hay with
    | nil => rfl
    | cons x xs => simp only [List.map, matchHere, prefixCI, ih]

theorem regexSearch_map_lit (cs hay : List Char) :
    regexSearch (cs.map RChar.lit) hay = substrCI cs hay := by
  induction hay with
  | nil => simp only [regexSearch, substrCI, matchHere_map_lit]
  | cons x xs ih => simp only [regexSearch, substrCI, matchHere_map_lit, ih]

theorem length_orderedInsert (le : Todo → Todo → Bool) (x : Todo)
    (l : List Todo) : (orderedInsert le x l).length = l.length + 1 := by
  induction l with
  | nil => rfl
  | cons y ys ih =>
    simp only [orderedInsert]
    split
    · rfl
    · simp [ih]

theorem length_sortDocs (le : Todo → Todo → Bool) (l : List Todo) :
    (sortDocs le l).length = l.length := by
  induction l with
  | nil => rfl
  | cons x xs ih => simp [sortDocs, length_orderedInsert, ih]

theorem countP_completed_split (l : List Todo) :
    l.countP (fun t => t.completed) + l.countP (fun t => !t.completed) =
      l.length := by
  induction l with
  | nil => rfl
  | cons t ts ih =>
    cases h : t.completed <;> simp [List.countP_cons, h] <;> omega

/-! ### Claim theorems -/

/-- C1: the statistics endpoint is claimed to count as overdue only tasks
with `completed=false` AND a present deadline strictly before now, so for
one task with no deadline and one not-completed task with a past deadline
it should return overdue=1. The aggregation in the code compares
`$lt: ['$deadline', new Date()]`, and the stored Null deadline of the
no-deadline task satisfies that comparison (BSON Null < every Date), so
the handler returns overdue=2 on the spec's own scenario: total=2,
completed=0, pending=2, overdue=2 — not overdue=1. -/
theorem c1_stats_scenario_counts_no_deadline_overdue :
    statsSummary
      [{ id := 1, user := 1, text := "Buy milk", completed := false,
         deadline := Option.none, priority := .medium,
         category := Option.none, createdAt := 0 },
       { id := 2, user := 1, text := "File taxes", completed := false,
         deadline := some 86400000, priority := .medium,
         category := Option.none, createdAt := 1 }] 1 172800000 =
    (true, { total := 2, completed := 0, pending := 2, overdue := 2 }) := by
  decide

/-- C5: for every deadline/completed pair at one instant, the `isOverdue`
predicate conjoined with not-completed agrees exactly with the
classifier's `overdue` case. -/
theorem c5_isOverdue_agrees_with_classifier (deadline : Option Int)
    (completed : Bool) (now : Int) :
    (isOverdue deadline now && !completed) =
      (getDeadlineStatus deadline completed now == DeadlineStatus.overdue) := by
  cases deadline with
  | none => cases completed <;> rfl
  | some d =>
    cases completed with
    | true =>
      simp only [isOverdue, Bool.not_true, Bool.and_false]
      rfl
    | false =>
      simp only [isOverdue, getDeadlineStatus, Bool.not_false, Bool.and_true]
      by_cases h : d - now < 0
      · rw [if_pos h]
        exact decide_eq_true (by omega)
      · rw [if_neg h]
        by_cases h2 : d - now ≤ 86400000 ∧ jsCeilDiv (d - now) 86400000 ≤ 1
        · rw [if_pos h2]
          exact decide_eq_false (by omega)
        · rw [if_neg h2]
          by_cases h3 : jsCeilDiv (d - now) 86400000 ≤ 3
          · rw [if_pos h3]
            exact decide_eq_false (by omega)
          · rw [if_neg h3]
            exact decide_eq_false (by omega)

/-- C8: for every owner and collection, the statistics satisfy
total = completed + pending and overdue ≤ pending, with total counting
all the owner's tasks, completed those with completed=true, and pending
those with completed=false. -/
theorem c8_stats_invariant (todos : List Todo) (owner : Nat) (now : Int) :
    (statsSummary todos owner now).2.total =
        (statsSummary todos owner now).2.completed +
          (statsSummary todos owner now).2.pending ∧
    (statsSummary todos owner now).2.overdue ≤
        (statsSummary todos owner now).2.pending ∧
    (statsSummary todos owner now).2.total =
        (todos.filter (fun t => t.user == owner)).length ∧
    (statsSummary todos owner now).2.completed =
        (todos.filter (fun t => t.user == owner)).countP
          (fun t => t.completed) ∧
    (statsSummary todos owner now).2.pending =
        (todos.filter (fun t => t.user == owner)).countP
          (fun t => !t.completed) := by
  unfold statsSummary aggregateStats
  by_cases h : (todos.filter (fun t => t.user == owner)).isEmpty
  · rw [List.isEmpty_iff] at h
    simp [h]
  · simp only [h, if_false, Option.getD_some]
    refine ⟨(countP_completed_split _).symm, ?_, rfl, rfl, rfl⟩
    exact List.countP_mono_left (fun x _ hx => by
      revert hx; cases x.completed <;> simp)

/-- C9: when an owner has zero tasks the aggregation yields no group row
and the handler substitutes the explicit all-zero object, returned with
success=true. -/
theorem c9_stats_empty_owner_zero_defaults (todos : List Todo) (owner : Nat)
    (now : Int) (h : todos.filter (fun t => t.user == owner) = []) :
    statsSummary todos owner now =
      (true, { total := 0, completed := 0, pending := 0, overdue := 0 }) := by
  simp [statsSummary, aggregateStats, h]

/-- Witness for C9 at a concrete store: one task owned by user 1, queried
for user 2. -/
theorem c9_stats_empty_owner_zero_defaults_witness :
    statsSummary
      [{ id := 1, user := 1, text := "Buy milk", completed := false,
         deadline := Option.none, priority := .medium,
         category := Option.none, createdAt := 0 }] 2 0 =
      (true, { total := 0, completed := 0, pending := 0, overdue := 0 }) :=
  c9_stats_empty_owner_zero_defaults _ 2 0 (by decide)

/-- C10: the create handler destructures only text/deadline/priority/
category from the body, so a created task has completed=false whatever
the caller supplied for `completed`. -/
theorem c10_create_ignores_completed (b : CreateBody) (owner freshId : Nat)
    (now : Int) (t : Todo) (h : createTodo b owner freshId now = some t) :
    t.completed = false := by
  unfold createTodo at h
  split at h
  · cases h; rfl
  · cases h

/-- A request body that explicitly supplies `completed: true`. -/
def bodyWithCompleted : CreateBody :=
  { text := " Buy milk ", deadline := Option.none, priority := Option.none,
    category := Option.none, completedB := some true }

/-- The document the create handler stores for `bodyWithCompleted`. -/
def createdFromBody : Todo :=
  { id := 5, user := 1, text := "Buy milk", completed := false,
    deadline := Option.none, priority := .medium, category := Option.none,
    createdAt := 0 }

/-- Witness for C10: a body that explicitly supplies `completed: true`
still yields a task with completed=false. -/
theorem c10_create_ignores_completed_witness :
    createTodo bodyWithCompleted 1 5 0 = some createdFromBody ∧
      createdFromBody.completed = false :=
  ⟨by decide, c10_create_ignores_completed bodyWithCompleted 1 5 0
    createdFromBody (by decide)⟩

/-- C4: the deadline classifier is a pure total function into the five
buckets; a completed task and a missing deadline always yield none;
overdue iff the deadline is present, strictly before now, and the task is
not completed; today iff the remaining time is between 0 and 24 hours;
soon iff the remaining time exceeds 24 hours and ceil(remaining/24h) ≤ 3;
normal iff ceil(remaining/24h) > 3. -/
theorem c4_classifier_total_characterization (deadline : Option Int)
    (completed : Bool) (now : Int) :
    (completed = true →
      getDeadlineStatus deadline completed now = DeadlineStatus.none) ∧
    (deadline = Option.none →
      getDeadlineStatus deadline completed now = DeadlineStatus.none) ∧
    (getDeadlineStatus deadline completed now = DeadlineStatus.overdue ↔
      ∃ d, deadline = some d ∧ completed = false ∧ d < now) ∧
    (getDeadlineStatus deadline completed now = DeadlineStatus.today ↔
      ∃ d, deadline = some d ∧ completed = false ∧ now ≤ d ∧
        d - now ≤ 86400000) ∧
    (getDeadlineStatus deadline completed now = DeadlineStatus.soon ↔
      ∃ d, deadline = some d ∧ completed = false ∧ 86400000 < d - now ∧
        jsCeilDiv (d - now) 86400000 ≤ 3) ∧
    (getDeadlineStatus deadline completed now = DeadlineStatus.normal ↔
      ∃ d, deadline = some d ∧ completed = false ∧
        3 < jsCeilDiv (d - now) 86400000) := by
  cases deadline with
  | none => simp [getDeadlineStatus]
  | some d =>
    cases completed with
    | true => simp [getDeadlineStatus]
    | false =>
      simp only [jsCeilDiv]
      have hgds : getDeadlineStatus (some d) false now =
          if d - now < 0 then .overdue
          else if d - now ≤ 86400000 ∧ -(-(d - now) / 86400000) ≤ 1 then
            .today
          else if -(-(d - now) / 86400000) ≤ 3 then .soon
          else .normal := rfl
      rw [hgds]
      refine ⟨by simp, by simp, ?_, ?_, ?_, ?_⟩
      all_goals
        by_cases h1 : d - now < 0
        · rw [if_pos h1]
          simp
          omega
        · rw [if_neg h1]
          by_cases h2 : d - now ≤ 86400000 ∧ -(-(d - now) / 86400000) ≤ 1
          · rw [if_pos h2]
            simp
            omega
          · rw [if_neg h2]
            by_cases h3 : -(-(d - now) / 86400000) ≤ 3
            · rw [if_pos h3]
              simp
              omega
            · rw [if_neg h3]
              simp
              omega

/-- Witness for C4: the characterization applied at concrete inputs,
discharging the hypotheses of its first two conjuncts and using the
overdue equivalence at a past deadline. -/
theorem c4_classifier_total_characterization_witness :
    getDeadlineStatus (some 0) true 86400000 = DeadlineStatus.none ∧
    getDeadlineStatus Option.none false 0 = DeadlineStatus.none ∧
    getDeadlineStatus (some 0) false 86400000 = DeadlineStatus.overdue :=
  ⟨(c4_classifier_total_characterization (some 0) true 86400000).1 rfl,
   (c4_classifier_total_characterization Option.none false 0).2.1 rfl,
   (c4_classifier_total_characterization (some 0) false 86400000).2.2.1.mpr
     ⟨0, rfl, rfl, by norm_num⟩⟩

/-- A backend-client state caught mid-edit with whitespace-only edit
text. -/
def stuckEditState : ClientState :=
  { todos := [{ id := 1, text := "Buy milk", completed := false,
                deadline := Option.none, createdAt := "d" }],
    editingId := some 1, editText := "   ", editDeadline := "",
    editTime := "", error := "" }

/-- C3 counterexample: in the backend-integrated variant, save-edit with
empty trimmed text leaves the task in editing state — `setEditingId(null)`
sits inside the non-empty branch — so the claim that both variants exit
edit mode is false at this state. -/
theorem c3_backend_saveEdit_keeps_editing_state :
    trimChars stuckEditState.editText = "" ∧
    (BackendApp.saveEdit stuckEditState).editingId = some 1 := by
  decide

/-- C3 (amended): with empty trimmed edit text, the offline variant
leaves every task unchanged and exits edit mode, while the
backend-integrated variant leaves the whole state unchanged — including
the editing state, which it does not exit. -/
theorem c3_saveEdit_empty_trim_behavior (s r : ClientState)
    (hs : trimChars s.editText = "") (hr : trimChars r.editText = "") :
    (OfflineApp.saveEdit s).todos = s.todos ∧
    (OfflineApp.saveEdit s).editingId = Option.none ∧
    BackendApp.saveEdit r = r := by
  refine ⟨?_, rfl, ?_⟩
  · simp [OfflineApp.saveEdit, hs]
  · simp [BackendApp.saveEdit, hr]

/-- Witness for C3 at the concrete mid-edit state. -/
theorem c3_saveEdit_empty_trim_behavior_witness :
    (OfflineApp.saveEdit stuckEditState).todos = stuckEditState.todos ∧
    (OfflineApp.saveEdit stuckEditState).editingId = Option.none ∧
    BackendApp.saveEdit stuckEditState = stuckEditState :=
  c3_saveEdit_empty_trim_behavior stuckEditState stuckEditState (by decide)
    (by decide)

/-- C6: bulk actions are idempotent per owner: delete-all twice yields a
positive count then zero with no task of the owner remaining; complete-all
twice yields a positive count then zero, re-counting no already-completed
task. -/
theorem c6_bulk_actions_idempotent (todos : List Todo) (owner : Nat) :
    ((todos.any fun t => t.user == owner) = true →
      0 < (deleteAll todos owner).2 ∧
      (deleteAll (deleteAll todos owner).1 owner).2 = 0 ∧
      (deleteAll todos owner).1.filter (fun t => t.user == owner) = []) ∧
    ((todos.any fun t => t.user == owner && !t.completed) = true →
      0 < (completeAll todos owner).2 ∧
      (completeAll (completeAll todos owner).1 owner).2 = 0) := by
  constructor
  · intro h
    rw [List.any_eq_true] at h
    obtain ⟨x, hx, hpx⟩ := h
    refine ⟨List.countP_pos_iff.mpr ⟨x, hx, hpx⟩, ?_, ?_⟩
    · refine List.countP_eq_zero.mpr ?_
      intro a ha
      have := (List.mem_filter.mp ha).2
      simpa using this
    · rw [List.filter_eq_nil_iff]
      intro a ha
      have := (List.mem_filter.mp ha).2
      simpa using this
  · intro h
    rw [List.any_eq_true] at h
    obtain ⟨x, hx, hpx⟩ := h
    refine ⟨List.countP_pos_iff.mpr ⟨x, hx, hpx⟩, ?_⟩
    refine List.countP_eq_zero.mpr ?_
    intro a ha
    rw [show (completeAll todos owner).1 = todos.map (fun t =>
        if t.user == owner && !t.completed then { t with completed := true }
        else t) from rfl, List.mem_map] at ha
    obtain ⟨b, hb, rfl⟩ := ha
    by_cases hbo : (b.user == owner && !b.completed) = true
    · simp [hbo]
    · simp [hbo]

/-- A store holding one not-completed task of owner 1. -/
def soloTodo : Todo :=
  { id := 1, user := 1, text := "Buy milk", completed := false,
    deadline := Option.none, priority := .medium, category := Option.none,
    createdAt := 0 }

/-- Witness for C6 on the one-task store. -/
theorem c6_bulk_actions_idempotent_witness :
    (0 < (deleteAll [soloTodo] 1).2 ∧
      (deleteAll (deleteAll [soloTodo] 1).1 1).2 = 0 ∧
      (deleteAll [soloTodo] 1).1.filter (fun t => t.user == 1) = []) ∧
    (0 < (completeAll [soloTodo] 1).2 ∧
      (completeAll (completeAll [soloTodo] 1).1 1).2 = 0) :=
  ⟨(c6_bulk_actions_idempotent [soloTodo] 1).1 (by decide),
   (c6_bulk_actions_idempotent [soloTodo] 1).2 (by decide)⟩

/-- The empty pattern matches every text, like the empty literal
substring. -/
theorem substrCI_nil (hay : List Char) : substrCI [] hay = true := by
  cases hay <;> simp [substrCI, prefixCI]

/-- The list query whose search parameter is the single regex
metacharacter `.` (a one-character search string, within the 100-character
limit). -/
def dotQuery : ListQuery :=
  { page := Option.none, limit := Option.none, completedQ := Option.none,
    categoryQ := Option.none, searchQ := some [RChar.dot],
    sortBy := Option.none, sortOrder := Option.none }

/-- A stored task of owner 1 whose text is just "x". -/
def xTodo : Todo :=
  { id := 1, user := 1, text := "x", completed := false,
    deadline := Option.none, priority := .medium, category := Option.none,
    createdAt := 0 }

/-- C2 counterexample: with the search string "." (length 1 ≤ 100) the
handler passes the string to the store as a regular expression, so the
task with text "x" is matched and returned although "x" does not contain
"." as a literal substring — refuting the claim for arbitrary search
strings. -/
theorem c2_regex_dot_not_literal_substring :
    ([RChar.dot] : Pattern).length ≤ 100 ∧
    [xTodo].filter (listFilter 1 dotQuery) = [xTodo] ∧
    listHandler [xTodo] 1 dotQuery = some ([xTodo], 1) ∧
    substrCI (String.data ".") (String.data "x") = false := by
  decide

/-- C2 (amended): for a search string without regex metacharacters (an
all-literal pattern) of at most 100 characters, the match set of the list
operation is exactly the owner's tasks whose text contains the search
string as a literal case-insensitive substring, conjoined with the
completed and category filters. -/
theorem c2_list_search_literal_substring_exact (todos : List Todo)
    (owner : Nat) (q : ListQuery) (s : String)
    (hq : q.searchQ = some (litPattern s)) (hlen : s.length ≤ 100)
    (t : Todo) :
    t ∈ todos.filter (listFilter owner q) ↔
      t ∈ todos ∧
        (t.user == owner &&
          (match q.completedQ with
           | Option.none => true
           | some b => t.completed == b) &&
          (match q.categoryQ with
           | Option.none => true
           | some c => if c = "" then true else t.category == some c) &&
          substrCI s.data t.text.data) = true := by
  rw [List.mem_filter]
  have hfilter : listFilter owner q t =
      (t.user == owner &&
        (match q.completedQ with
         | Option.none => true
         | some b => t.completed == b) &&
        (match q.categoryQ with
         | Option.none => true
         | some c => if c = "" then true else t.category == some c) &&
        substrCI s.data t.text.data) := by
    unfold listFilter
    rw [hq]
    congr 1
    show (if litPattern s = [] then true
        else regexSearch (litPattern s) t.text.data) =
      substrCI s.data t.text.data
    by_cases hs : litPattern s = []
    · rw [if_pos hs]
      have hd : s.data = [] := by simpa [litPattern] using hs
      rw [hd, substrCI_nil]
    · rw [if_neg hs]
      show regexSearch (s.data.map RChar.lit) t.text.data = _
      rw [regexSearch_map_lit]
  rw [hfilter]

/-- The list query searching for the literal string "milk". -/
def milkQuery : ListQuery :=
  { page := Option.none, limit := Option.none, completedQ := Option.none,
    categoryQ := Option.none, searchQ := some (litPattern "milk"),
    sortBy := Option.none, sortOrder := Option.none }

/-- A stored task of owner 1 whose text contains "MILK". -/
def milkTodo : Todo :=
  { id := 1, user := 1, text := "Buy MILK", completed := false,
    deadline := Option.none, priority := .medium, category := Option.none,
    createdAt := 0 }

/-- Witness for C2 at the literal search "milk" against the text
"Buy MILK". -/
theorem c2_list_search_literal_substring_exact_witness :
    milkTodo ∈ [milkTodo].filter (listFilter 1 milkQuery) ↔
      milkTodo ∈ [milkTodo] ∧
        (milkTodo.user == 1 &&
          (match milkQuery.completedQ with
           | Option.none => true
           | some b => milkTodo.completed == b) &&
          (match milkQuery.categoryQ with
           | Option.none => true
           | some c => if c = "" then true else milkTodo.category == some c) &&
          substrCI "milk".data milkTodo.text.data) = true :=
  c2_list_search_literal_substring_exact [milkTodo] 1 milkQuery "milk" rfl
    (by decide) milkTodo

/-- C7: whenever the list handler accepts the query (valid page/limit),
the returned page is the filtered, sorted sequence with
skip = (page−1)×limit and take = limit applied, its length is at most the
limit and at most the pre-pagination count, and that count is computed
over exactly the same filter predicate. -/
theorem c7_pagination_skip_take_bounds (todos : List Todo) (owner : Nat)
    (q : ListQuery) (res : List Todo × Nat)
    (h : listHandler todos owner q = some res) :
    res.1.length ≤ effLimit q ∧
    res.1.length ≤ res.2 ∧
    res.2 = (todos.filter (listFilter owner q)).length ∧
    res.1 = ((sortDocs (sortLe q) (todos.filter (listFilter owner q))).drop
        ((effPage q - 1) * effLimit q)).take (effLimit q) := by
  unfold listHandler at h
  split at h
  · cases h
    refine ⟨?_, ?_, rfl, rfl⟩
    · show (((sortDocs (sortLe q) (todos.filter (listFilter owner q))).drop
          ((effPage q - 1) * effLimit q)).take (effLimit q)).length ≤
        effLimit q
      rw [List.length_take]
      omega
    · show (((sortDocs (sortLe q) (todos.filter (listFilter owner q))).drop
          ((effPage q - 1) * effLimit q)).take (effLimit q)).length ≤
        (todos.filter (listFilter owner q)).length
      rw [List.length_take, List.length_drop, length_sortDocs]
      omega
  · cases h

/-- The list query with every parameter absent (page 1, limit 10). -/
def defaultQuery : ListQuery :=
  { page := Option.none, limit := Option.none, completedQ := Option.none,
    categoryQ := Option.none, searchQ := Option.none,
    sortBy := Option.none, sortOrder := Option.none }

/-- A stored task of owner 1 used to exercise the pagination bounds. -/
def pagedTodo : Todo :=
  { id := 1, user := 1, text := "Buy milk", completed := false,
    deadline := Option.none, priority := .medium, category := Option.none,
    createdAt := 0 }

/-- Witness for C7 on a one-task store with the default query. -/
theorem c7_pagination_skip_take_bounds_witness :
    (([pagedTodo], 1) : List Todo × Nat).1.length ≤ effLimit defaultQuery ∧
    (([pagedTodo], 1) : List Todo × Nat).1.length ≤
      (([pagedTodo], 1) : List Todo × Nat).2 ∧
    (([pagedTodo], 1) : List Todo × Nat).2 =
      ([pagedTodo].filter (listFilter 1 defaultQuery)).length ∧
    (([pagedTodo], 1) : List Todo × Nat).1 =
      ((sortDocs (sortLe defaultQuery)
          ([pagedTodo].filter (listFilter 1 defaultQuery))).drop
        ((effPage defaultQuery - 1) * effLimit defaultQuery)).take
        (effLimit defaultQuery) :=
  c7_pagination_skip_take_bounds [pagedTodo] 1 defaultQuery ([pagedTodo], 1)
    (by decide)
